import Mathlib

/-!
Verification of the state-synchronization core of the
autonomous-dynamic-api-routing-engine repository: the configuration
resolver (src/config.py) and the Firestore client wrapper
(src/firebase_client.py).

The Python source is shallowly embedded: dataclass validation becomes a
function returning `Except`, the client object becomes an explicit
`ClientState` threaded through operations, the remote Firestore service
is an oracle `World` that says which external steps fail, and the
remote document store is an association list from (collection,
document-id) pairs to documents.  Python string truthiness (`if s:`) is
modelled explicitly: the empty string and `None` are both falsy.
-/

namespace Routing

/-! ## Configuration (src/config.py) -/

/-- Environment tags, from `class Environment` in src/config.py. -/
inductive Environment
  | development
  | staging
  | production
deriving DecidableEq, Repr

/-- Firebase configuration fields, from `class FirebaseConfig` in
src/config.py. -/
structure FirebaseConfig where
  project_id : String
  credentials_path : String
  database_url : String
deriving DecidableEq, Repr

/-- `FirebaseConfig.validate` from src/config.py lines 33-37: raises
`ValueError` (the spec calls it `ConfigurationError`) when the project
id is falsy, i.e. the empty string; otherwise returns `True`. -/
def FirebaseConfig.validate (fc : FirebaseConfig) : Except String Bool :=
  if fc.project_id = "" then
    .error "Firebase project ID is required"
  else
    .ok true

/-- API server configuration fields, from `class APIConfig` in
src/config.py. -/
structure APIConfig where
  host : String
  port : Int
  workers : Int
  debug : Bool
  cors_origins : List String
deriving DecidableEq, Repr

/-- The main configuration snapshot, from `class Config` in
src/config.py.  The routing and logging sub-configurations are held as
data only and never inspected by the validation in `__post_init__`, so
they are omitted from the embedding. -/
structure Config where
  environment : Environment
  firebase : FirebaseConfig
  api : APIConfig
deriving DecidableEq, Repr

/-- `Config.__post_init__` from src/config.py lines 84-92: runs
`firebase.validate()`, then in the production environment rejects debug
mode and a wildcard entry in the CORS origin list.  A raise in Python
means the constructed object never reaches the caller, so construction
is modelled as returning either the whole snapshot or an error. -/
def Config.postInit (cfg : Config) : Except String Config :=
  match cfg.firebase.validate with
  | .error e => .error e
  | .ok _ =>
    if cfg.environment = .production then
      if cfg.api.debug then
        .error "Debug mode cannot be enabled in production"
      else if "*" ∈ cfg.api.cors_origins then
        .error "Wildcard CORS origins not allowed in production"
      else
        .ok cfg
    else
      .ok cfg

/-- The condition under which claim C3 says construction must fail. -/
def BadConfig (cfg : Config) : Prop :=
  cfg.firebase.project_id = "" ∨
    (cfg.environment = .production ∧
      (cfg.api.debug = true ∨ "*" ∈ cfg.api.cors_origins))

instance (cfg : Config) : Decidable (BadConfig cfg) := by
  unfold BadConfig
  infer_instance

/-! ## The remote document store

The remote Firestore database is modelled as an association list from
(collection, document-id) pairs to documents, plus a counter that
drives store-generated identifiers.  Document payloads
(`Dict[str, Any]` in the source) are never inspected by any operation,
so fields are modelled as string-valued. -/

/-- A document: a mapping of field names to values. -/
abbrev Doc := List (String × String)

/-- The remote document store contents. -/
structure Store where
  docs : List ((String × String) × Doc)
  nextId : Nat
deriving DecidableEq, Repr

/-- Look up the document stored under collection `c` and identifier
`i`; first match wins, so a prepended entry shadows older ones. -/
def Store.get (s : Store) (c i : String) : Option Doc :=
  (s.docs.find? (fun e => e.1 == (c, i))).map (·.2)

/-- Overwrite-or-insert the document under collection `c` and
identifier `i`; models Firestore `DocumentReference.set`, which
replaces the whole document. -/
def Store.set (s : Store) (c i : String) (d : Doc) : Store :=
  { s with docs := ((c, i), d) :: s.docs }

/-- The store-generated identifier produced by the n-th call to
Firestore `CollectionReference.add`; generated identifiers are
non-empty and pairwise distinct. -/
def genId (n : Nat) : String :=
  "auto:" ++ toString n

/-- The empty store. -/
def Store.empty : Store := { docs := [], nextId := 0 }

theorem Store.get_set_same (s : Store) (c i : String) (d : Doc) :
    (s.set c i d).get c i = some d := by
  simp [Store.get, Store.set, List.find?]

theorem Store.get_set_other (s : Store) (c i j : String) (d : Doc)
    (h : i ≠ j) : (s.set c i d).get c j = s.get c j := by
  simp only [Store.get, Store.set, List.find?]
  have : (((c, i), d).1 == (c, j)) = false := by
    simp [Prod.ext_iff]
    exact h
  simp [this]

/-! ## The Firebase client (src/firebase_client.py)

The client object's mutable attributes become `ClientState`; the
external layers (filesystem, firebase-admin SDK, Firestore service)
become the oracle `World`, which says which external step fails when
the code reaches it.  Each method returns its Python result (an
`Except`: a raise becomes `.error`), the updated client state, and the
number of underlying remote connection establishments it performed. -/

/-- The errors the client code can raise.  The source raises Python
exceptions; the spec names them `CredentialsNotFoundError`
(= `FileNotFoundError` at src/firebase_client.py line 48),
`StoreInitializationError` (= the re-raised `FirebaseError` or
`Exception` at lines 67-73), and `StoreReadError` / `StoreWriteError`
for remote CRUD failures. -/
inductive StoreErr
  | credsNotFound
  | initFailed
  | clientFailed
  | writeFailed
  | readFailed
deriving DecidableEq, Repr

/-- Behaviour of the external layers as seen by the client code:
whether the credentials file exists (`os.path.exists`, line 46),
whether `firebase_admin.initialize_app` raises (lines 54-57), whether
`firestore.client()` raises (line 60), and whether remote reads or
writes fail in transport. -/
structure World where
  credsExists : Bool
  initAppFails : Bool
  clientFails : Bool
  writeFails : Bool
  readFails : Bool
deriving DecidableEq, Repr

/-- The mutable attributes of `FirebaseClient` set in `__init__`
(src/firebase_client.py lines 26-30): `_app`, `_db`, `_initialized`.
The app and db objects carry no further observable structure here, so
they are modelled as unit tokens. -/
structure ClientState where
  app : Option Unit
  db : Option Unit
  initialized : Bool
deriving DecidableEq, Repr

/-- The state produced by `FirebaseClient.__init__`. -/
def ClientState.init : ClientState :=
  { app := none, db := none, initialized := false }

/-- The method `initialize` of `FirebaseClient` (src/firebase_client.py
lines 32-73), named `initializeClient` here.
Returns the Python result, the client state after the call, and the
number of remote connection establishments (`initialize_app` calls)
performed.

Line-by-line: if `_initialized and _app` holds, return `True` at once
(lines 40-42).  If the credentials path does not exist, raise
`FileNotFoundError` before touching the remote layer (lines 44-48).
Then call `initialize_app` (lines 51-57; on failure the raised error
propagates through the `except` clauses, lines 67-73), record
`self._app` (line 59), call `firestore.client()` (line 60; on failure
the error propagates with `_app` already recorded), record `self._db`
and set `_initialized` (lines 60-61), and return `True` (line 65). -/
def FirebaseClient.initializeClient (w : World) (st : ClientState) :
    Except StoreErr Bool × ClientState × Nat :=
  if st.initialized ∧ st.app.isSome then
    (.ok true, st, 0)
  else if ¬ w.credsExists then
    (.error .credsNotFound, st, 0)
  else if w.initAppFails then
    (.error .initFailed, st, 1)
  else
    let st1 : ClientState := { st with app := some () }
    if w.clientFails then
      (.error .clientFailed, st1, 1)
    else
      (.ok true, { st1 with db := some (), initialized := true }, 1)

/-- The `db` property (src/firebase_client.py lines 75-80): if not
initialized or `_db` is unset, call `initialize()` first (a raise
propagates to the caller); then return `self._db`. -/
def FirebaseClient.db (w : World) (st : ClientState) :
    Except StoreErr (Option Unit) × ClientState × Nat :=
  if ¬ st.initialized ∨ st.db.isNone then
    match FirebaseClient.initializeClient w st with
    | (.ok _, st2, n) => (.ok st2.db, st2, n)
    | (.error e, st2, n) => (.error e, st2, n)
  else
    (.ok st.db, st, 0)

/-- Python truthiness of `Optional[str]`: `None` and the empty string
are falsy (the `if document_id:` test at src/firebase_client.py
line 109). -/
def pyTruthy : Option String → Bool
  | none => false
  | some s => s ≠ ""

/-- `FirebaseClient.create_document` (src/firebase_client.py lines
92-125), acting on the remote store.  If `document_id` is truthy, the
document reference is set (an upsert) and the supplied identifier is
returned (lines 109-113, 120); otherwise `add` stores the data under a
store-generated identifier, which is returned (lines 114-120).  A
remote failure is re-raised (lines 122-125). -/
def FirebaseClient.create_document (w : World) (store : Store)
    (collection : String) (data : Doc) (document_id : Option String) :
    Except StoreErr (String × Store) :=
  if w.writeFails then
    .error .writeFailed
  else if pyTruthy document_id then
    let i := document_id.getD ""
    .ok (i, store.set collection i data)
  else
    let i := genId store.nextId
    .ok (i, { store.set collection i data with nextId := store.nextId + 1 })

/-- Modelled from the spec: the body of `get_document` is missing from
the source (src/firebase_client.py is truncated inside its docstring
at line 130, so only the signature at line 127 is visible).  Spec
section 4.3: it returns the document's field mapping if found, or an
explicit not-found result — never an error — when the identifier does
not exist in the collection, and fails with `StoreReadError` only on
transport/service failures distinct from not-found. -/
def FirebaseClient.get_document (w : World) (store : Store)
    (collection : String) (document_id : String) :
    Except StoreErr (Option Doc) :=
  if w.readFails then
    .error .readFailed
  else
    .ok (store.get collection document_id)

/-! ## The transaction scope (src/firebase_client.py lines 82-90)

The context manager obtains a fresh transaction object from
`self.db.transaction()` and yields it to the body.  Writes issued
through the transaction object are buffered client-side in the
transaction (the Firestore transaction applies them only at commit).
The body is modelled as a function from the transaction object to
either the final transaction object (normal completion) or a raised
error of an arbitrary type ε.  The source's context manager never
begins, commits, nor rolls back the transaction: on normal completion
it simply returns, and on a raise it logs and re-raises the original
error (lines 86-90).  In both cases the buffered writes are discarded
with the transaction object and the remote store is untouched. -/

/-- A Firestore transaction object: the client-side buffer of writes
issued through it, in issue order. -/
structure Txn where
  writes : List ((String × String) × Doc)
deriving DecidableEq, Repr

/-- Modelled from the spec: committing a transaction applies its
buffered writes to the store (spec section 4.4, the all-or-nothing
commit the scope is supposed to attempt).  The source never calls
this; it exists to state what a commit would observably do. -/
def Txn.commitTo (t : Txn) (s : Store) : Store :=
  t.writes.foldl (fun acc wr => acc.set wr.1.1 wr.1.2 wr.2) s

/-- `FirebaseClient.transaction` used as a scope around `body`
(src/firebase_client.py lines 82-90).  `self.db` may lazily
initialize and its error propagates (line 85) before the body runs;
otherwise a fresh transaction object is yielded to the body.  A body
raise is logged and re-raised unchanged; normal completion just
returns — no commit or rollback is issued on either path, so the
store component is returned as it was. -/
def FirebaseClient.withTransaction {ε : Type} (w : World) (st : ClientState)
    (store : Store) (body : Txn → Except ε Txn) :
    Except (StoreErr ⊕ ε) Unit × ClientState × Store :=
  match FirebaseClient.db w st with
  | (.error e, st2, _) => (.error (.inl e), st2, store)
  | (.ok _, st2, _) =>
    match body { writes := [] } with
    | .ok _t => (.ok (), st2, store)
    | .error e => (.error (.inr e), st2, store)

/-! ## Concrete fixtures used by witnesses and counterexamples -/

/-- A world in which every external step succeeds. -/
def Wok : World :=
  { credsExists := true, initAppFails := false, clientFails := false,
    writeFails := false, readFails := false }

/-- A world in which `firestore.client()` raises after
`initialize_app` has succeeded. -/
def Wclientfail : World :=
  { credsExists := true, initAppFails := false, clientFails := true,
    writeFails := false, readFails := false }

/-- A world in which the credentials file is missing. -/
def Wnocreds : World :=
  { credsExists := false, initAppFails := false, clientFails := false,
    writeFails := false, readFails := false }

/-- The client state after a successful initialization. -/
def readySt : ClientState :=
  { app := some (), db := some (), initialized := true }

/-- A sample document. -/
def d0 : Doc := [("f", "v")]

/-- The store produced by `create_document` on the empty store with
the empty-string identifier supplied: the data lands under the
store-generated identifier `genId 0`. -/
def storeAfterEmptyId : Store :=
  { docs := [(("c", genId 0), d0)], nextId := 1 }

/-- A transaction body that issues one buffered write and completes
normally. -/
def bodyWrite : Txn → Except String Txn :=
  fun t => .ok { writes := t.writes ++ [(("c", "x"), d0)] }

/-- Store-generated identifiers are never the empty string. -/
theorem genId_ne_empty (n : Nat) : genId n ≠ "" := by
  intro h
  have hlen := congrArg String.length h
  simp [genId, String.length_append] at hlen
  exact absurd hlen.1 (by decide)

/-! ## The claims -/

/-- Claim C3: construction of the configuration snapshot fails (with
`ConfigurationError`, i.e. the raised `ValueError`) if and only if the
project identifier is empty, or the environment is production and
debug is enabled or the CORS allow-list contains the wildcard; in all
other cases the whole validated snapshot is returned (no partial
snapshot). -/
theorem config_construction_fails_iff (cfg : Config) :
    (cfg.postInit = .ok cfg ↔ ¬ BadConfig cfg) ∧
    ((∃ e, cfg.postInit = .error e) ↔ BadConfig cfg) := by
  unfold Config.postInit FirebaseConfig.validate BadConfig
  by_cases h1 : cfg.firebase.project_id = "" <;>
    by_cases h2 : cfg.environment = Environment.production <;>
      by_cases h3 : cfg.api.debug = true <;>
        by_cases h4 : "*" ∈ cfg.api.cors_origins <;>
          simp_all

/-- Claim C4: once `initialize()` has succeeded (necessarily with
exactly one underlying connection establishment from the fresh state),
a second call returns true immediately, changes nothing, and performs
zero further connection establishments. -/
theorem initialize_idempotent (w : World) (st1 : ClientState) (n : Nat)
    (h : FirebaseClient.initializeClient w ClientState.init = (.ok true, st1, n)) :
    n = 1 ∧ FirebaseClient.initializeClient w st1 = (.ok true, st1, 0) := by
  rcases w with ⟨ce, ia, cf, wf, rf⟩
  cases ce <;> cases ia <;> cases cf <;>
    simp_all [FirebaseClient.initializeClient, ClientState.init]
  simp [← h.1]

/-- Witness for C4 at a concrete world in which establishment
succeeds. -/
theorem initialize_idempotent_witness :
    1 = 1 ∧ FirebaseClient.initializeClient Wok readySt = (.ok true, readySt, 0) :=
  initialize_idempotent Wok readySt 1 rfl

/-- Counterexample to claim C5: when `firestore.client()` raises after
`initialize_app` has succeeded, `initialize` re-raises the failure but
the client state is NOT unchanged — the app handle has been recorded
at src/firebase_client.py line 59 before the failing line 60. -/
theorem initialize_failure_changes_state :
    FirebaseClient.initializeClient Wclientfail ClientState.init =
      (.error .clientFailed,
        { app := some (), db := none, initialized := false }, 1) ∧
    ({ app := some (), db := none, initialized := false } : ClientState) ≠
      ClientState.init := by
  constructor
  · rfl
  · simp [ClientState.init]

/-- Claim C5 as amended: on any lower-level failure of initialization
the error is re-raised, the initialized flag remains false and no
database client is recorded (so a later call re-runs establishment);
the state is fully unchanged when the failure occurs during session
establishment, but a failure at client creation leaves the app
reference recorded. -/
theorem initialize_failure_preserves_flag (w : World) (st1 : ClientState)
    (e : StoreErr) (n : Nat)
    (h : FirebaseClient.initializeClient w ClientState.init = (.error e, st1, n)) :
    st1.initialized = false ∧ st1.db = none ∧
    (e = .initFailed → st1 = ClientState.init) ∧
    (e = .clientFailed → st1.app = some ()) := by
  rcases w with ⟨ce, ia, cf, wf, rf⟩
  cases ce <;> cases ia <;> cases cf <;>
    simp_all [FirebaseClient.initializeClient, ClientState.init]
  all_goals
    obtain ⟨he, hst, hn⟩ := h
    subst hst
    subst he
    simp [ClientState.init]

/-- Witness for the amended C5 at the concrete world in which client
creation fails. -/
theorem initialize_failure_preserves_flag_witness :
    ({ app := some (), db := none, initialized := false } : ClientState).initialized = false ∧
    ({ app := some (), db := none, initialized := false } : ClientState).db = none ∧
    ({ app := some (), db := none, initialized := false } : ClientState).app = some () :=
  ⟨(initialize_failure_preserves_flag Wclientfail
      { app := some (), db := none, initialized := false } .clientFailed 1 rfl).1,
   (initialize_failure_preserves_flag Wclientfail
      { app := some (), db := none, initialized := false } .clientFailed 1 rfl).2.1,
   (initialize_failure_preserves_flag Wclientfail
      { app := some (), db := none, initialized := false } .clientFailed 1 rfl).2.2.2 rfl⟩

/-- Claim C6: with a missing credentials file, `initialize()` on a
fresh client raises `CredentialsNotFoundError` with zero connection
establishments (the failure precedes any remote attempt), and the
first use of the lazy `db` accessor propagates the same failure
instead of returning a handle. -/
theorem creds_missing_fails_before_connection (w : World)
    (hw : w.credsExists = false) :
    FirebaseClient.initializeClient w ClientState.init =
      (.error .credsNotFound, ClientState.init, 0) ∧
    FirebaseClient.db w ClientState.init =
      (.error .credsNotFound, ClientState.init, 0) := by
  simp [FirebaseClient.initializeClient, FirebaseClient.db, ClientState.init, hw]

/-- Witness for C6 at the concrete credentials-missing world. -/
theorem creds_missing_fails_before_connection_witness :
    FirebaseClient.initializeClient Wnocreds ClientState.init =
      (.error .credsNotFound, ClientState.init, 0) ∧
    FirebaseClient.db Wnocreds ClientState.init =
      (.error .credsNotFound, ClientState.init, 0) :=
  creds_missing_fails_before_connection Wnocreds rfl

/-- Counterexample to claim C7: with the caller-supplied identifier
equal to the empty string (falsy in Python), `create_document` stores
the data under a store-generated identifier, so the subsequent
`get_document` with the supplied identifier returns the absence
marker, not the data. -/
theorem create_get_roundtrip_fails_empty_id :
    FirebaseClient.create_document Wok Store.empty "c" d0 (some "") =
      .ok (genId 0, storeAfterEmptyId) ∧
    FirebaseClient.get_document Wok storeAfterEmptyId "c" "" = .ok none ∧
    (.ok none : Except StoreErr (Option Doc)) ≠ .ok (some d0) := by
  refine ⟨rfl, rfl, ?_⟩
  simp [d0]

/-- Claim C7 as amended: for every non-empty caller-supplied
identifier x (and absent transport failures), `create_document`
followed by `get_document` on x returns exactly the written data. -/
theorem create_get_roundtrip (w : World) (store : Store) (c x : String)
    (d : Doc) (hx : x ≠ "") (hw : w.writeFails = false)
    (hr : w.readFails = false) :
    FirebaseClient.create_document w store c d (some x) =
      .ok (x, store.set c x d) ∧
    FirebaseClient.get_document w (store.set c x d) c x = .ok (some d) := by
  constructor
  · simp [FirebaseClient.create_document, hw, pyTruthy, hx]
  · simp [FirebaseClient.get_document, hr, Store.get_set_same]

/-- Witness for the amended C7 at a concrete non-empty identifier. -/
theorem create_get_roundtrip_witness :
    FirebaseClient.create_document Wok Store.empty "c" d0 (some "x") =
      .ok ("x", Store.set Store.empty "c" "x" d0) ∧
    FirebaseClient.get_document Wok (Store.set Store.empty "c" "x" d0) "c" "x" =
      .ok (some d0) :=
  create_get_roundtrip Wok Store.empty "c" "x" d0 (by decide) rfl rfl

/-- Counterexample to claim C8: the empty string is a supplied,
non-absent identifier, yet `create_document` does not return it
unchanged — the Python truthiness test at src/firebase_client.py line
109 sends it to the auto-generation branch, which returns the
store-generated identifier instead. -/
theorem create_empty_id_not_returned :
    FirebaseClient.create_document Wok Store.empty "c" d0 (some "") =
      .ok (genId 0, storeAfterEmptyId) ∧ genId 0 ≠ "" := by
  exact ⟨rfl, genId_ne_empty 0⟩

/-- Claim C8 as amended: for every supplied non-empty identifier x,
`create_document` upserts under x — the stored mapping afterwards
yields the new data at x — and returns exactly x, unchanged. -/
theorem create_supplied_id_upserts (w : World) (store : Store)
    (c x : String) (d : Doc) (hx : x ≠ "") (hw : w.writeFails = false) :
    FirebaseClient.create_document w store c d (some x) =
      .ok (x, store.set c x d) ∧
    (store.set c x d).get c x = some d := by
  constructor
  · simp [FirebaseClient.create_document, hw, pyTruthy, hx]
  · exact Store.get_set_same store c x d

/-- Witness for the amended C8: upserting over an existing document at
the same identifier overwrites it and returns the identifier. -/
theorem create_supplied_id_upserts_witness :
    FirebaseClient.create_document Wok (Store.set Store.empty "c" "x" []) "c" d0 (some "x") =
      .ok ("x", Store.set (Store.set Store.empty "c" "x" []) "c" "x" d0) ∧
    (Store.set (Store.set Store.empty "c" "x" []) "c" "x" d0).get "c" "x" =
      some d0 :=
  create_supplied_id_upserts Wok (Store.set Store.empty "c" "x" []) "c" "x" d0
    (by decide) rfl

/-- Claim C9: for an identifier absent from the collection,
`get_document` returns the explicit absence marker as a normal value
when transport succeeds, and raises `StoreReadError` exactly when the
transport fails — never because of absence. -/
theorem get_document_notfound_is_value (w : World) (store : Store)
    (c x : String) (hmiss : store.get c x = none) :
    FirebaseClient.get_document w store c x =
      (if w.readFails then .error .readFailed else .ok none) := by
  simp [FirebaseClient.get_document, hmiss]

/-- Witness for C9 on the empty store. -/
theorem get_document_notfound_is_value_witness :
    FirebaseClient.get_document Wok Store.empty "c" "missing" =
      (if Wok.readFails then .error .readFailed else .ok none) :=
  get_document_notfound_is_value Wok Store.empty "c" "missing" rfl

/-- Claim C10: supplying the empty string as `document_id` behaves
exactly as supplying no identifier; on success the returned identifier
is the store-generated one (never the empty string) and nothing is
stored under the empty-string identifier. -/
theorem create_empty_id_behaves_as_absent (w : World) (store : Store)
    (c : String) (d : Doc) :
    FirebaseClient.create_document w store c d (some "") =
      FirebaseClient.create_document w store c d none ∧
    (w.writeFails = false →
      FirebaseClient.create_document w store c d (some "") =
        .ok (genId store.nextId,
          { store.set c (genId store.nextId) d with nextId := store.nextId + 1 }) ∧
      genId store.nextId ≠ "" ∧
      (store.set c (genId store.nextId) d).get c "" = store.get c "") := by
  refine ⟨rfl, fun hw => ⟨?_, genId_ne_empty store.nextId, ?_⟩⟩
  · simp [FirebaseClient.create_document, hw, pyTruthy]
  · exact Store.get_set_other store c (genId store.nextId) "" d
      (genId_ne_empty store.nextId)

/-- Witness for C10 on the empty store. -/
theorem create_empty_id_behaves_as_absent_witness :
    FirebaseClient.create_document Wok Store.empty "c" d0 (some "") =
      FirebaseClient.create_document Wok Store.empty "c" d0 none ∧
    FirebaseClient.create_document Wok Store.empty "c" d0 (some "") =
      .ok (genId Store.empty.nextId,
        { Store.empty.set "c" (genId Store.empty.nextId) d0 with
            nextId := Store.empty.nextId + 1 }) ∧
    genId Store.empty.nextId ≠ "" ∧
    (Store.empty.set "c" (genId Store.empty.nextId) d0).get "c" "" =
      Store.empty.get "c" "" :=
  ⟨(create_empty_id_behaves_as_absent Wok Store.empty "c" d0).1,
   (create_empty_id_behaves_as_absent Wok Store.empty "c" d0).2 rfl⟩

/-- Claim C1, evaluated at the failing input: a body that buffers one
transactional write and completes normally.  The scope exits with
success but the remote store is untouched — the buffered write never
becomes visible — whereas committing that transaction would have made
it visible.  The context manager at src/firebase_client.py lines 82-90
never begins, commits, nor rolls back the transaction it yields, so no
commit is ever attempted on normal completion and no commit failure
can ever be surfaced. -/
theorem transaction_normal_exit_never_commits :
    FirebaseClient.withTransaction Wok readySt Store.empty bodyWrite =
      (.ok (), readySt, Store.empty) ∧
    Store.empty.get "c" "x" = none ∧
    (Txn.commitTo { writes := [(("c", "x"), d0)] } Store.empty).get "c" "x" =
      some d0 := by
  exact ⟨rfl, rfl, rfl⟩

/-- Claim C2: when the body raises, the scope re-raises that same
error unchanged and the store is exactly its pre-transaction state
(writes buffered in the discarded transaction object never reach the
store). -/
theorem transaction_body_error_aborts {ε : Type} (w : World)
    (st : ClientState) (store : Store) (body : Txn → Except ε Txn) (e : ε)
    (hst : st.initialized = true) (hdb : st.db = some ())
    (hb : body { writes := [] } = .error e) :
    FirebaseClient.withTransaction w st store body =
      (.error (.inr e), st, store) := by
  unfold FirebaseClient.withTransaction FirebaseClient.db
  simp [hst, hdb, hb]

/-- Witness for C2: a body that buffers a write and then raises. -/
theorem transaction_body_error_aborts_witness :
    FirebaseClient.withTransaction Wok readySt Store.empty
      (fun t => match bodyWrite t with
        | .ok _ => (.error "boom" : Except String Txn)
        | .error e => .error e) =
      (.error (.inr "boom"), readySt, Store.empty) :=
  transaction_body_error_aborts Wok readySt Store.empty _ "boom" rfl rfl rfl

end Routing
